import Mathlib

/-!
Verification of the pi-power-butler energy pipeline.

Shallow embedding of the core logic of the repository:
* `generate_simple_recommendation` (src/main.py) — the rule-based
  recommendation engine.  Python floats are modelled as `ℚ`; a Python
  exception is modelled as `Except.error` carrying the message.  The
  human-readable Telegram message is string formatting over the fields
  modelled here and is not itself reproduced.
* `PriceFetcher.get_prices_from_json` (src/price_fetcher.py) — the price
  response parser, over an inductive JSON value type.
* `EnergyDataCache` (src/cache.py) — the sqlite day-keyed cache, modelled
  as a list of rows keyed by ISO date strings (sqlite TEXT comparison on
  ISO dates coincides with lexicographic string order).
-/

/-- Python `min(l)` on a list of floats: raises `ValueError` on an empty
list, otherwise folds `min` over the elements. -/
def pyMin (l : List ℚ) : Except String ℚ :=
  match l with
  | [] => .error "ValueError: min arg is an empty sequence"
  | x :: xs => .ok (xs.foldl min x)

/-- Python `max(l)` on a list of floats: raises `ValueError` on an empty
list, otherwise folds `max` over the elements. -/
def pyMax (l : List ℚ) : Except String ℚ :=
  match l with
  | [] => .error "ValueError: max arg is an empty sequence"
  | x :: xs => .ok (xs.foldl max x)

/-- Python `min(l) if l else dflt` on a list of ints (used for the solar
window bounds, where the empty case defaults). -/
def pyMinNatD (l : List ℕ) (dflt : ℕ) : ℕ :=
  match l with
  | [] => dflt
  | x :: xs => xs.foldl min x

/-- Python `max(l) if l else dflt` on a list of ints. -/
def pyMaxNatD (l : List ℕ) (dflt : ℕ) : ℕ :=
  match l with
  | [] => dflt
  | x :: xs => xs.foldl max x

/-- The slice `prices[s:s+3]` from the window loop in main.py. -/
def windowSlice (prices : List ℚ) (s : ℕ) : List ℚ :=
  (prices.drop s).take 3

/-- `sum(window_prices) / len(window_prices)` for the 3-hour window starting
at hour `s` (division by a zero length is the Python `ZeroDivisionError`
path, guarded separately in `windowStep`). -/
def windowAvg (prices : List ℚ) (s : ℕ) : ℚ :=
  (windowSlice prices s).sum / ((windowSlice prices s).length : ℚ)

/-- `x < b` where `b` is `best_avg_price`, a float that starts out as
the float infinity; `none` models infinity, so everything is below it. -/
def ltInf (x : ℚ) (b : Option ℚ) : Bool :=
  match b with
  | none => true
  | some v => decide (x < v)

/-- `b < x` where `b` is `best_avg_price`, possibly still infinite
(encoded `none`); infinity is below nothing. -/
def infLt (b : Option ℚ) (x : ℚ) : Bool :=
  match b with
  | none => false
  | some v => decide (v < x)

/-- One iteration of the cheapest-window loop of main.py, on state
`(best_start_hour, best_avg_price)`.  An empty slice makes the mean raise
`ZeroDivisionError`. -/
def windowStep (prices : List ℚ) (acc : ℕ × Option ℚ) (s : ℕ) :
    Except String (ℕ × Option ℚ) :=
  if (windowSlice prices s).length = 0 then
    .error "ZeroDivisionError: division by zero"
  else if ltInf (windowAvg prices s) acc.2 then
    .ok (s, some (windowAvg prices s))
  else
    .ok acc

/-- The pure version of `windowStep`, used to reason about runs in which no
slice is empty. -/
def windowStepP (prices : List ℚ) (acc : ℕ × Option ℚ) (s : ℕ) :
    ℕ × Option ℚ :=
  if ltInf (windowAvg prices s) acc.2 then (s, some (windowAvg prices s))
  else acc

/-- main.py lines 63-72: `for start_hour in range(22): ...` starting from
`best_start_hour = 0` and `best_avg_price` set to the float infinity. -/
def findBestWindow (prices : List ℚ) : Except String (ℕ × Option ℚ) :=
  (List.range 22).foldlM (windowStep prices) (0, none)

/-- main.py line 76: the hours whose irradiance strictly exceeds 70% of the
peak, `[i for i, irr in enumerate(irradiance) if irr > max_irradiance * 0.7]`,
rendered as a filter over the index range. -/
def bestSolarHours (irradiance : List ℚ) (maxIrradiance : ℚ) : List ℕ :=
  (List.range irradiance.length).filter
    (fun i => decide (maxIrradiance * (7/10) < irradiance.getD i 0))

/-- main.py line 81 / spec §4.4 Calibrator:
`daily_solar_estimate = sum(irradiance) * settings.solar_ratio`. -/
def estimate (irradiance : List ℚ) (ratio : ℚ) : ℚ :=
  irradiance.sum * ratio

/-- The decision-relevant fields computed by `generate_simple_recommendation`
(the returned Telegram message is string formatting over these).
`bestAvgPrice` keeps the `Option` encoding of the float infinity. -/
structure Recommendation where
  shouldCharge : Bool
  chargeStartHour : ℕ
  chargeEndHour : ℕ
  bestAvgPrice : Option ℚ
  bestSolarStart : ℕ
  bestSolarEnd : ℕ
  dailySolarEstimate : ℚ
  minPrice : ℚ
  maxPrice : ℚ
  avgPrice : ℚ
  minPriceHour : ℕ
  maxPriceHour : ℕ
  deriving Repr, DecidableEq

/-- main.py `generate_simple_recommendation(soc, prices, irradiance)`.
`ratio` stands for the configuration value `settings.solar_ratio`.
Computation order follows the source: `min(prices)`, `max(prices)`,
`avg`, the window loop, `max(irradiance)`, the solar hours, the estimate,
then the decision `soc < 30 or (soc < 60 and best_avg_price < avg_price * 0.7)`. -/
def generate_simple_recommendation (ratio soc : ℚ) (prices irradiance : List ℚ) :
    Except String Recommendation :=
  match pyMin prices with
  | .error e => .error e
  | .ok min_price =>
    match pyMax prices with
    | .error e => .error e
    | .ok max_price =>
      let avg_price := prices.sum / (prices.length : ℚ)
      match findBestWindow prices with
      | .error e => .error e
      | .ok (best_start_hour, best_avg_price) =>
        match pyMax irradiance with
        | .error e => .error e
        | .ok max_irradiance =>
          let best_solar_hours := bestSolarHours irradiance max_irradiance
          let best_solar_start := pyMinNatD best_solar_hours 12
          let best_solar_end := pyMaxNatD best_solar_hours 15
          let daily_solar_estimate := estimate irradiance ratio
          let should_charge :=
            decide (soc < 30) ||
              (decide (soc < 60) && infLt best_avg_price (avg_price * (7/10)))
          .ok {
            shouldCharge := should_charge
            chargeStartHour := best_start_hour
            chargeEndHour := (best_start_hour + 3) % 24
            bestAvgPrice := best_avg_price
            bestSolarStart := best_solar_start
            bestSolarEnd := best_solar_end
            dailySolarEstimate := daily_solar_estimate
            minPrice := min_price
            maxPrice := max_price
            avgPrice := avg_price
            minPriceHour := prices.indexOf min_price
            maxPriceHour := prices.indexOf max_price }

/-- JSON values, as delivered by the price feed. -/
inductive Json where
  | null
  | bool (b : Bool)
  | num (v : ℚ)
  | str (s : String)
  | arr (items : List Json)
  | obj (fields : List (String × Json))

/-- Dictionary access `j[k]` guarded by `k in j`: `some` when `j` is an
object carrying key `k`.  (In Python a non-dict here raises `TypeError`,
which `get_prices_from_json` catches and converts to the same
`PriceDataNotAvailableError` as the missing-key branch; the model folds the
two paths together.) -/
def Json.lookup (j : Json) (k : String) : Option Json :=
  match j with
  | .obj fields => (fields.find? (fun p => p.1 == k)).map (fun p => p.2)
  | _ => none

/-- Python `float(y)` as used on point values.  Plain numbers convert;
`None`, lists and dicts raise `TypeError`, non-numeric strings raise
`ValueError` — all caught and turned into `PriceDataNotAvailableError`.
(Numeric strings and bools, which `float` would also accept, never occur in
this feed and are not modelled.) -/
def numVal : Json → Option ℚ
  | .num v => some v
  | _ => none

/-- The numeric value of a point object: its `y` field, when numeric. -/
def pointVal (p : Json) : Option ℚ :=
  (p.lookup "y").bind numVal

/-- price_fetcher.py lines 89-93: the extraction loop over the point array;
the first malformed point raises. -/
def extractPrices : List Json → Except String (List ℚ)
  | [] => .ok []
  | p :: rest =>
    match p.lookup "y" with
    | none => .error "Price data not yet available - missing y field in point data"
    | some y =>
      match numVal y with
      | none => .error "Price data not yet available - invalid price values"
      | some v =>
        match extractPrices rest with
        | .error e => .error e
        | .ok vs => .ok (v :: vs)

/-- price_fetcher.py `PriceFetcher.get_prices_from_json`.  Every failure
path — the explicit structure checks as well as the caught
`KeyError | IndexError | TypeError | ValueError` — raises
`PriceDataNotAvailableError`, so the error type is just the message. -/
def get_prices_from_json (j : Json) : Except String (List ℚ) :=
  match j.lookup "data" with
  | none => .error "No data field found in price response"
  | some data =>
    match data.lookup "dataLine" with
    | none => .error "No dataLine field found in price response"
    | some dataLine =>
      match dataLine with
      | .arr series =>
        if series.length < 2 then
          .error "Price data not yet available - dataLine array is too short"
        else
          match series.get? 1 with
          | none => .error "Price data not yet available - unexpected data structure"
          | some second =>
            match second.lookup "point" with
            | none => .error "Price data not yet available - no point field in dataLine[1]"
            | some pts =>
              match pts with
              | .arr points =>
                if points.isEmpty then
                  .error "Price data not yet available - points array is empty"
                else
                  extractPrices points
              | _ => .error "Price data not yet available - unexpected data structure"
      | _ => .error "Price data not yet available - unexpected data structure"

/-- A well-formed point object `{"y": v}`. -/
def mkPoint (v : ℚ) : Json :=
  .obj [("y", .num v)]

/-- A response in the published shape of the feed: the second entry of
`data.dataLine` carries the point array (the first entry is ignored by the
parser). -/
def mkResponse (points : List Json) : Json :=
  .obj [("data", .obj [("dataLine", .arr [.null, .obj [("point", .arr points)]])])]

/-- `Except.ok`-ness as a Bool (Python: returned without raising). -/
def exceptOk {ε α : Type} (e : Except ε α) : Bool :=
  match e with
  | .ok _ => true
  | .error _ => false

/-- The result of a recommendation run, `none` when it raised. -/
def recOf (e : Except String Recommendation) : Option Recommendation :=
  e.toOption

/-- One row of the `energy_cache` table: date (ISO string, primary key) and
the two JSON-serialised series.  `json.dumps`/`json.loads` on a list of
finite floats is an exact round trip, so the series are held directly; the
`cached_at` wall-clock column is not modelled (no claim reads it). -/
structure CacheRow where
  date : String
  prices : List ℚ
  irradiance : List ℚ
  deriving Repr, DecidableEq

/-- cache.py `cache_data`: `INSERT OR REPLACE` keyed on `date` — any
existing row for the date is dropped and the new row stored. -/
def cache_data (db : List CacheRow) (d : String) (prices irradiance : List ℚ) :
    List CacheRow :=
  db.filter (fun r => !(r.date == d)) ++ [⟨d, prices, irradiance⟩]

/-- cache.py `get_cached_data`: `SELECT ... WHERE date = ?` on the primary
key. -/
def get_cached_data (db : List CacheRow) (d : String) : Option CacheRow :=
  db.find? (fun r => r.date == d)

/-- cache.py `cleanup_old_data`: `DELETE FROM energy_cache WHERE date < ?`
with the parameter being the ISO date of today, returning the remaining table and the
`rowcount` of deleted rows.  sqlite TEXT `<` on ISO dates is lexicographic
byte order, matching `String` order on these ASCII strings; `today` is the
wall-clock local date, a parameter here. -/
def cleanup_old_data (db : List CacheRow) (today : String) :
    List CacheRow × ℕ :=
  (db.filter (fun r => !(decide (r.date < today))),
   (db.filter (fun r => decide (r.date < today))).length)

/-- Rows used to witness the cache claims on concrete data. -/
def demoDb : List CacheRow :=
  [⟨"2025-07-01", [1, 2], [3, 4]⟩,
   ⟨"2025-07-02", [5], [6]⟩,
   ⟨"2025-07-03", [7], [8]⟩]

/-- A response skeleton with the given value under `data.dataLine`. -/
def mkResponseRaw (dl : Json) : Json :=
  .obj [("data", .obj [("dataLine", dl)])]

/-- The example price curve of the spec: [15,12,8,6,10,18] repeated 4 times. -/
def examplePrices : List ℚ :=
  [15, 12, 8, 6, 10, 18, 15, 12, 8, 6, 10, 18, 15, 12, 8, 6, 10, 18,
   15, 12, 8, 6, 10, 18]

/-- The example irradiance of the spec: [0,0,0,0,0,100] repeated 4 times. -/
def exampleIrr : List ℚ :=
  [0, 0, 0, 0, 0, 100, 0, 0, 0, 0, 0, 100, 0, 0, 0, 0, 0, 100,
   0, 0, 0, 0, 0, 100]

/-! ### Helper lemmas -/

lemma exceptOk_false_iff {ε α : Type} (e : Except ε α) :
    exceptOk e = false ↔ ∃ msg, e = .error msg := by
  cases e <;> simp [exceptOk]

lemma sum_map_mul (k : ℚ) (l : List ℚ) :
    (l.map (fun x => k * x)).sum = k * l.sum := by
  induction l with
  | nil => simp
  | cons a t ih => simp [ih, mul_add]

lemma find?_put (db : List CacheRow) (d : String) (P I : List ℚ) :
    (cache_data db d P I).find? (fun r => r.date == d) = some ⟨d, P, I⟩ := by
  unfold cache_data
  induction db with
  | nil => simp [List.find?]
  | cons a t ih =>
    by_cases h : a.date = d
    · simpa [List.filter_cons, h] using ih
    · simpa [List.filter_cons, h, List.find?] using ih

lemma filter_length_split (l : List CacheRow) (p : CacheRow → Bool) :
    (l.filter p).length + (l.filter (fun r => !(p r))).length = l.length := by
  induction l with
  | nil => simp
  | cons a t ih =>
    by_cases h : p a <;> simp [List.filter_cons, h] <;> omega

/-- C9: the calibrated generation estimate is `ratio * sum(irradiance)` and
is linear in the irradiance series. -/
theorem spec_C9_estimate_linear (irr : List ℚ) (ratio k : ℚ) :
    estimate irr ratio = ratio * irr.sum ∧
    estimate (irr.map (fun x => k * x)) ratio = k * estimate irr ratio := by
  constructor
  · simp [estimate, mul_comm]
  · simp [estimate, sum_map_mul, mul_assoc]

/-- C7: caching data for a date and reading that date back returns the same
price and irradiance series, and a later `put` for the same date replaces
the earlier record wholesale. -/
theorem spec_C7_cache_roundtrip (db : List CacheRow) (d : String)
    (P I P2 I2 : List ℚ) :
    get_cached_data (cache_data db d P I) d = some ⟨d, P, I⟩ ∧
    get_cached_data (cache_data (cache_data db d P2 I2) d P I) d
      = some ⟨d, P, I⟩ := by
  exact ⟨find?_put db d P I, find?_put (cache_data db d P2 I2) d P I⟩

/-- C8: `cleanup_old_data` keeps exactly the rows whose date is not before
today, returns the number of rows it removed, and removes nothing (count 0)
when no row qualifies. -/
theorem spec_C8_cleanup (db : List CacheRow) (today : String) :
    (∀ r, r ∈ (cleanup_old_data db today).1 ↔
        (r ∈ db ∧ ¬(r.date < today))) ∧
    (cleanup_old_data db today).2
      = db.length - (cleanup_old_data db today).1.length ∧
    ((∀ r ∈ db, ¬(r.date < today)) → cleanup_old_data db today = (db, 0)) := by
  refine ⟨?_, ?_, ?_⟩
  · intro r
    simp [cleanup_old_data, List.mem_filter]
  · have h := filter_length_split db (fun r => decide (r.date < today))
    simp only [cleanup_old_data]
    omega
  · intro hall
    have h1 : db.filter (fun r => !(decide (r.date < today))) = db := by
      apply List.filter_eq_self.mpr
      intro a ha
      simpa using hall a ha
    have h2 : db.filter (fun r => decide (r.date < today)) = [] := by
      apply List.filter_eq_nil_iff.mpr
      intro a ha
      simpa using hall a ha
    unfold cleanup_old_data
    rw [h1, h2]
    rfl

/-- C8 witness: the cleanup characterisation instantiated on a concrete
three-row cache with today = 2025-07-02 (yesterday/today/tomorrow rows). -/
theorem spec_C8_cleanup_witness :
    (∀ r, r ∈ (cleanup_old_data demoDb "2025-07-02").1 ↔
        (r ∈ demoDb ∧ ¬(r.date < "2025-07-02"))) ∧
    (cleanup_old_data demoDb "2025-07-02").2
      = demoDb.length - (cleanup_old_data demoDb "2025-07-02").1.length ∧
    ((∀ r ∈ demoDb, ¬(r.date < "2025-07-02")) →
        cleanup_old_data demoDb "2025-07-02" = (demoDb, 0)) :=
  spec_C8_cleanup demoDb "2025-07-02"

lemma exbind_ok {ε α β : Type} (a : α) (f : α → Except ε β) :
    (Except.ok a : Except ε α) >>= f = f a := rfl

lemma exbind_err {ε α β : Type} (e : ε) (f : α → Except ε β) :
    (Except.error e : Except ε α) >>= f = .error e := rfl

lemma exfoldlM_nil (f : (ℕ × Option ℚ) → ℕ → Except String (ℕ × Option ℚ))
    (acc : ℕ × Option ℚ) : List.foldlM f acc ([] : List ℕ) = .ok acc := rfl

lemma exfoldlM_cons (f : (ℕ × Option ℚ) → ℕ → Except String (ℕ × Option ℚ))
    (acc : ℕ × Option ℚ) (x : ℕ) (xs : List ℕ) :
    List.foldlM f acc (x :: xs) = f acc x >>= fun a => List.foldlM f a xs := rfl

lemma pyMin_ok (l : List ℚ) (h : l ≠ []) : ∃ m, pyMin l = .ok m := by
  cases l with
  | nil => exact absurd rfl h
  | cons x xs => exact ⟨_, rfl⟩

lemma pyMax_ok (l : List ℚ) (h : l ≠ []) : ∃ m, pyMax l = .ok m := by
  cases l with
  | nil => exact absurd rfl h
  | cons x xs => exact ⟨_, rfl⟩

lemma windowSlice_length (prices : List ℚ) (s : ℕ) :
    (windowSlice prices s).length = min 3 (prices.length - s) := by
  simp [windowSlice]

lemma windowStep_ok_of (prices : List ℚ) (acc : ℕ × Option ℚ) (s : ℕ)
    (h : s < prices.length) :
    windowStep prices acc s = .ok (windowStepP prices acc s) := by
  have hl : ¬((windowSlice prices s).length = 0) := by
    rw [windowSlice_length]; omega
  unfold windowStep windowStepP
  rw [if_neg hl]
  by_cases hc : ltInf (windowAvg prices s) acc.2 = true
  · rw [if_pos hc, if_pos hc]
  · rw [if_neg hc, if_neg hc]

lemma windowStep_err_of (prices : List ℚ) (acc : ℕ × Option ℚ) (s : ℕ)
    (h : prices.length ≤ s) :
    windowStep prices acc s = .error "ZeroDivisionError: division by zero" := by
  have hl : (windowSlice prices s).length = 0 := by
    rw [windowSlice_length]; omega
  unfold windowStep
  rw [if_pos hl]

lemma foldlM_ok_of (prices : List ℚ) (l : List ℕ)
    (h : ∀ s ∈ l, s < prices.length) :
    ∀ acc, List.foldlM (windowStep prices) acc l
      = .ok (List.foldl (windowStepP prices) acc l) := by
  induction l with
  | nil => intro acc; rfl
  | cons x xs ih =>
    intro acc
    have hx : x < prices.length := h x (List.mem_cons_self x xs)
    have hxs : ∀ s ∈ xs, s < prices.length :=
      fun s hs => h s (List.mem_cons_of_mem x hs)
    rw [exfoldlM_cons, windowStep_ok_of prices acc x hx, exbind_ok,
      List.foldl_cons]
    exact ih hxs (windowStepP prices acc x)

lemma foldlM_err_of (prices : List ℚ) (l : List ℕ) :
    ∀ acc, (∃ s ∈ l, prices.length ≤ s) →
    exceptOk (List.foldlM (windowStep prices) acc l) = false := by
  induction l with
  | nil =>
    intro acc h
    obtain ⟨s, hs, _⟩ := h
    simp at hs
  | cons x xs ih =>
    intro acc h
    by_cases hx : x < prices.length
    · rw [exfoldlM_cons, windowStep_ok_of prices acc x hx, exbind_ok]
      apply ih
      obtain ⟨s, hs, hslen⟩ := h
      rcases List.mem_cons.mp hs with rfl | hmem
      · omega
      · exact ⟨s, hmem, hslen⟩
    · rw [exfoldlM_cons, windowStep_err_of prices acc x (by omega), exbind_err]
      rfl

lemma foldl_range_best (prices : List ℚ) :
    ∀ n, 0 < n → ∃ b q,
      List.foldl (windowStepP prices) (0, none) (List.range n) = (b, some q) ∧
      q = windowAvg prices b ∧ b < n ∧
      (∀ s, s < n → q ≤ windowAvg prices s) ∧
      (∀ s, s < b → q < windowAvg prices s) := by
  intro n
  induction n with
  | zero => intro h; exact absurd h (lt_irrefl 0)
  | succ m ih =>
    intro _
    by_cases hm : 0 < m
    · obtain ⟨b, q, heq, hq, hb, hle, hlt⟩ := ih hm
      rw [List.range_succ, List.foldl_append, heq, List.foldl_cons,
        List.foldl_nil]
      have hstep : windowStepP prices (b, some q) m =
          if windowAvg prices m < q then (m, some (windowAvg prices m))
          else (b, some q) := by
        simp [windowStepP, ltInf]
      rw [hstep]
      by_cases hc : windowAvg prices m < q
      · rw [if_pos hc]
        refine ⟨m, windowAvg prices m, rfl, rfl, Nat.lt_succ_self m, ?_, ?_⟩
        · intro s hs
          rcases Nat.lt_succ_iff_lt_or_eq.mp hs with h | rfl
          · exact le_of_lt (lt_of_lt_of_le hc (hle s h))
          · exact le_refl _
        · intro s hs
          exact lt_of_lt_of_le hc (hle s hs)
      · rw [if_neg hc]
        refine ⟨b, q, rfl, hq, Nat.lt_succ_of_lt hb, ?_, hlt⟩
        intro s hs
        rcases Nat.lt_succ_iff_lt_or_eq.mp hs with h | rfl
        · exact hle s h
        · exact le_of_not_lt hc
    · have hm0 : m = 0 := by omega
      subst hm0
      refine ⟨0, windowAvg prices 0, ?_, rfl, Nat.one_pos, ?_, ?_⟩
      · have h1 : List.range 1 = [0] := rfl
        rw [h1, List.foldl_cons, List.foldl_nil]
        simp [windowStepP, ltInf]
      · intro s hs
        have : s = 0 := by omega
        subst this
        exact le_refl _
      · intro s hs
        exact absurd hs (Nat.not_lt_zero s)

lemma findBestWindow_spec (prices : List ℚ) (h : 22 ≤ prices.length) :
    ∃ b q, findBestWindow prices = .ok (b, some q) ∧
      q = windowAvg prices b ∧ b < 22 ∧
      (∀ s, s < 22 → q ≤ windowAvg prices s) ∧
      (∀ s, s < b → q < windowAvg prices s) := by
  obtain ⟨b, q, heq, hq, hb, hle, hlt⟩ := foldl_range_best prices 22 (by omega)
  have hall : ∀ s ∈ List.range 22, s < prices.length := by
    intro s hs
    have := List.mem_range.mp hs
    omega
  refine ⟨b, q, ?_, hq, hb, hle, hlt⟩
  rw [findBestWindow, foldlM_ok_of prices _ hall, heq]

lemma gen_eq (ratio soc : ℚ) (prices irr : List ℚ)
    (mp xp mi : ℚ) (b : ℕ) (obv : Option ℚ)
    (hmin : pyMin prices = .ok mp) (hmax : pyMax prices = .ok xp)
    (hbw : findBestWindow prices = .ok (b, obv))
    (hmaxi : pyMax irr = .ok mi) :
    generate_simple_recommendation ratio soc prices irr = .ok {
      shouldCharge := decide (soc < 30) || (decide (soc < 60) &&
        infLt obv (prices.sum / (prices.length : ℚ) * (7/10)))
      chargeStartHour := b
      chargeEndHour := (b + 3) % 24
      bestAvgPrice := obv
      bestSolarStart := pyMinNatD (bestSolarHours irr mi) 12
      bestSolarEnd := pyMaxNatD (bestSolarHours irr mi) 15
      dailySolarEstimate := estimate irr ratio
      minPrice := mp
      maxPrice := xp
      avgPrice := prices.sum / (prices.length : ℚ)
      minPriceHour := prices.indexOf mp
      maxPriceHour := prices.indexOf xp } := by
  unfold generate_simple_recommendation
  rw [hmin, hmax, hbw, hmaxi]

lemma mem_bestSolarHours (irr : List ℚ) (m : ℚ) (i : ℕ) :
    i ∈ bestSolarHours irr m ↔
      (i < irr.length ∧ m * (7/10) < irr.getD i 0) := by
  simp [bestSolarHours, List.mem_filter, List.mem_range]

lemma foldl_min_spec (xs : List ℕ) : ∀ x : ℕ,
    (xs.foldl min x = x ∨ xs.foldl min x ∈ xs) ∧ xs.foldl min x ≤ x ∧
    (∀ y ∈ xs, xs.foldl min x ≤ y) := by
  induction xs with
  | nil =>
    intro x
    exact ⟨Or.inl rfl, le_refl x, by intro y hy; simp at hy⟩
  | cons a t ih =>
    intro x
    obtain ⟨hmem, hle, hall⟩ := ih (min x a)
    refine ⟨?_, ?_, ?_⟩
    · rw [List.foldl_cons]
      rcases hmem with h | h
      · rw [h]
        rcases le_total x a with hxa | hxa
        · exact Or.inl (min_eq_left hxa)
        · exact Or.inr (by rw [min_eq_right hxa]; exact List.mem_cons_self a t)
      · exact Or.inr (List.mem_cons_of_mem a h)
    · rw [List.foldl_cons]
      exact le_trans hle (min_le_left x a)
    · intro y hy
      rw [List.foldl_cons]
      rcases List.mem_cons.mp hy with rfl | hmem2
      · exact le_trans hle (min_le_right x y)
      · exact hall y hmem2

lemma foldl_max_spec (xs : List ℕ) : ∀ x : ℕ,
    (xs.foldl max x = x ∨ xs.foldl max x ∈ xs) ∧ x ≤ xs.foldl max x ∧
    (∀ y ∈ xs, y ≤ xs.foldl max x) := by
  induction xs with
  | nil =>
    intro x
    exact ⟨Or.inl rfl, le_refl x, by intro y hy; simp at hy⟩
  | cons a t ih =>
    intro x
    obtain ⟨hmem, hle, hall⟩ := ih (max x a)
    refine ⟨?_, ?_, ?_⟩
    · rw [List.foldl_cons]
      rcases hmem with h | h
      · rw [h]
        rcases le_total x a with hxa | hxa
        · exact Or.inr (by rw [max_eq_right hxa]; exact List.mem_cons_self a t)
        · exact Or.inl (max_eq_left hxa)
      · exact Or.inr (List.mem_cons_of_mem a h)
    · rw [List.foldl_cons]
      exact le_trans (le_max_left x a) hle
    · intro y hy
      rw [List.foldl_cons]
      rcases List.mem_cons.mp hy with rfl | hmem2
      · exact le_trans (le_max_right x y) hle
      · exact hall y hmem2

lemma pyMinNatD_spec (l : List ℕ) (d : ℕ) (h : l ≠ []) :
    pyMinNatD l d ∈ l ∧ ∀ y ∈ l, pyMinNatD l d ≤ y := by
  cases l with
  | nil => exact absurd rfl h
  | cons x xs =>
    obtain ⟨hmem, hle, hall⟩ := foldl_min_spec xs x
    refine ⟨?_, ?_⟩
    · show xs.foldl min x ∈ x :: xs
      rcases hmem with h1 | h1
      · rw [h1]; exact List.mem_cons_self x xs
      · exact List.mem_cons_of_mem x h1
    · intro y hy
      show xs.foldl min x ≤ y
      rcases List.mem_cons.mp hy with rfl | hmem2
      · exact hle
      · exact hall y hmem2

lemma pyMaxNatD_spec (l : List ℕ) (d : ℕ) (h : l ≠ []) :
    pyMaxNatD l d ∈ l ∧ ∀ y ∈ l, y ≤ pyMaxNatD l d := by
  cases l with
  | nil => exact absurd rfl h
  | cons x xs =>
    obtain ⟨hmem, hle, hall⟩ := foldl_max_spec xs x
    refine ⟨?_, ?_⟩
    · show xs.foldl max x ∈ x :: xs
      rcases hmem with h1 | h1
      · rw [h1]; exact List.mem_cons_self x xs
      · exact List.mem_cons_of_mem x h1
    · intro y hy
      show y ≤ xs.foldl max x
      rcases List.mem_cons.mp hy with rfl | hmem2
      · exact hle
      · exact hall y hmem2

/-- C2: for valid 24-length inputs the shouldCharge flag is exactly
`soc < 30 OR (soc < 60 AND best-window mean < 0.7 * overall mean)`; in
particular it is true whenever soc < 30 and false whenever soc ≥ 60. -/
theorem spec_C2_shouldCharge (ratio soc : ℚ) (prices irr : List ℚ)
    (hp : prices.length = 24) (hi : irr.length = 24) :
    ∃ r, generate_simple_recommendation ratio soc prices irr = .ok r ∧
      (r.shouldCharge = true ↔
        (soc < 30 ∨ (soc < 60 ∧
          windowAvg prices r.chargeStartHour < prices.sum / 24 * (7/10)))) ∧
      (soc < 30 → r.shouldCharge = true) ∧
      (60 ≤ soc → r.shouldCharge = false) := by
  have hpne : prices ≠ [] := by intro h; rw [h] at hp; simp at hp
  have hine : irr ≠ [] := by intro h; rw [h] at hi; simp at hi
  obtain ⟨mp, hmin⟩ := pyMin_ok prices hpne
  obtain ⟨xp, hmax⟩ := pyMax_ok prices hpne
  obtain ⟨mi, hmaxi⟩ := pyMax_ok irr hine
  obtain ⟨b, q, hbw, hq, hb, hle, hlt⟩ := findBestWindow_spec prices (by omega)
  have hcast : ((prices.length : ℕ) : ℚ) = 24 := by rw [hp]; norm_num
  refine ⟨_, gen_eq ratio soc prices irr mp xp mi b (some q) hmin hmax hbw hmaxi,
    ?_, ?_, ?_⟩
  · show (decide (soc < 30) || (decide (soc < 60) &&
      infLt (some q) (prices.sum / (prices.length : ℚ) * (7/10)))) = true ↔ _
    rw [hcast]
    simp only [infLt, Bool.or_eq_true, Bool.and_eq_true, decide_eq_true_eq]
    rw [← hq]
  · intro h
    show (decide (soc < 30) || _) = true
    simp [h]
  · intro h
    have h1 : ¬(soc < 30) := by linarith
    have h2 : ¬(soc < 60) := by linarith
    show (decide (soc < 30) || (decide (soc < 60) && _)) = false
    simp [h1, h2]

/-- C2 witness: the characterisation instantiated at soc = 25 on the
example series of the spec. -/
theorem spec_C2_shouldCharge_witness :
    ([15, 12, 8, 6, 10, 18, 15, 12, 8, 6, 10, 18, 15, 12, 8, 6, 10, 18,
      15, 12, 8, 6, 10, 18] : List ℚ).length = 24 ∧
    (List.replicate 24 (0 : ℚ)).length = 24 ∧
    ∃ r, generate_simple_recommendation 1 25
        [15, 12, 8, 6, 10, 18, 15, 12, 8, 6, 10, 18, 15, 12, 8, 6, 10, 18,
         15, 12, 8, 6, 10, 18] (List.replicate 24 (0 : ℚ)) = .ok r ∧
      (r.shouldCharge = true ↔
        ((25 : ℚ) < 30 ∨ ((25 : ℚ) < 60 ∧
          windowAvg [15, 12, 8, 6, 10, 18, 15, 12, 8, 6, 10, 18, 15, 12, 8,
            6, 10, 18, 15, 12, 8, 6, 10, 18] r.chargeStartHour
            < ([15, 12, 8, 6, 10, 18, 15, 12, 8, 6, 10, 18, 15, 12, 8, 6,
               10, 18, 15, 12, 8, 6, 10, 18] : List ℚ).sum / 24 * (7/10)))) ∧
      ((25 : ℚ) < 30 → r.shouldCharge = true) ∧
      ((60 : ℚ) ≤ 25 → r.shouldCharge = false) :=
  ⟨by simp, by simp,
   spec_C2_shouldCharge 1 25 _ _ (by simp) (by simp)⟩

/-- C3: for valid 24-length inputs the charge window start is in [0,21],
its end hour is (start+3) mod 24, its mean is the reported best mean, no
3-hour window has a strictly smaller mean, and every earlier window has a
strictly larger mean (first-wins tie break). -/
theorem spec_C3_cheapest_window (ratio soc : ℚ) (prices irr : List ℚ)
    (hp : prices.length = 24) (hi : irr.length = 24) :
    ∃ r, generate_simple_recommendation ratio soc prices irr = .ok r ∧
      r.chargeStartHour < 22 ∧
      r.chargeEndHour = (r.chargeStartHour + 3) % 24 ∧
      r.bestAvgPrice = some (windowAvg prices r.chargeStartHour) ∧
      (∀ s, s < 22 →
        windowAvg prices r.chargeStartHour ≤ windowAvg prices s) ∧
      (∀ s, s < r.chargeStartHour →
        windowAvg prices r.chargeStartHour < windowAvg prices s) := by
  have hpne : prices ≠ [] := by intro h; rw [h] at hp; simp at hp
  have hine : irr ≠ [] := by intro h; rw [h] at hi; simp at hi
  obtain ⟨mp, hmin⟩ := pyMin_ok prices hpne
  obtain ⟨xp, hmax⟩ := pyMax_ok prices hpne
  obtain ⟨mi, hmaxi⟩ := pyMax_ok irr hine
  obtain ⟨b, q, hbw, hq, hb, hle, hlt⟩ := findBestWindow_spec prices (by omega)
  refine ⟨_, gen_eq ratio soc prices irr mp xp mi b (some q) hmin hmax hbw hmaxi,
    hb, rfl, by rw [← hq], ?_, ?_⟩
  · intro s hs
    rw [← hq]
    exact hle s hs
  · intro s hs
    rw [← hq]
    exact hlt s hs

/-- C3 witness: the window characterisation instantiated on the example
prices of the spec. -/
theorem spec_C3_cheapest_window_witness :
    ([15, 12, 8, 6, 10, 18, 15, 12, 8, 6, 10, 18, 15, 12, 8, 6, 10, 18,
      15, 12, 8, 6, 10, 18] : List ℚ).length = 24 ∧
    (List.replicate 24 (0 : ℚ)).length = 24 ∧
    ∃ r, generate_simple_recommendation 1 50
        [15, 12, 8, 6, 10, 18, 15, 12, 8, 6, 10, 18, 15, 12, 8, 6, 10, 18,
         15, 12, 8, 6, 10, 18] (List.replicate 24 (0 : ℚ)) = .ok r ∧
      r.chargeStartHour < 22 ∧
      r.chargeEndHour = (r.chargeStartHour + 3) % 24 ∧
      r.bestAvgPrice = some (windowAvg [15, 12, 8, 6, 10, 18, 15, 12, 8, 6,
        10, 18, 15, 12, 8, 6, 10, 18, 15, 12, 8, 6, 10, 18]
        r.chargeStartHour) ∧
      (∀ s, s < 22 →
        windowAvg [15, 12, 8, 6, 10, 18, 15, 12, 8, 6, 10, 18, 15, 12, 8,
          6, 10, 18, 15, 12, 8, 6, 10, 18] r.chargeStartHour ≤
        windowAvg [15, 12, 8, 6, 10, 18, 15, 12, 8, 6, 10, 18, 15, 12, 8,
          6, 10, 18, 15, 12, 8, 6, 10, 18] s) ∧
      (∀ s, s < r.chargeStartHour →
        windowAvg [15, 12, 8, 6, 10, 18, 15, 12, 8, 6, 10, 18, 15, 12, 8,
          6, 10, 18, 15, 12, 8, 6, 10, 18] r.chargeStartHour <
        windowAvg [15, 12, 8, 6, 10, 18, 15, 12, 8, 6, 10, 18, 15, 12, 8,
          6, 10, 18, 15, 12, 8, 6, 10, 18] s) :=
  ⟨by simp, by simp,
   spec_C3_cheapest_window 1 50 _ _ (by simp) (by simp)⟩

/-- C4: for valid 24-length inputs the best solar window is
[min, max] of the hours whose irradiance strictly exceeds 70% of the peak
irradiance, defaulting to [12, 15] when no hour qualifies. -/
theorem spec_C4_solar_window (ratio soc : ℚ) (prices irr : List ℚ)
    (hp : prices.length = 24) (hi : irr.length = 24) :
    ∃ r peak, pyMax irr = .ok peak ∧
      generate_simple_recommendation ratio soc prices irr = .ok r ∧
      ((∃ h, h < 24 ∧ peak * (7/10) < irr.getD h 0) →
        (r.bestSolarStart < 24 ∧
         peak * (7/10) < irr.getD r.bestSolarStart 0 ∧
         r.bestSolarEnd < 24 ∧
         peak * (7/10) < irr.getD r.bestSolarEnd 0 ∧
         (∀ h, h < 24 → peak * (7/10) < irr.getD h 0 →
           r.bestSolarStart ≤ h ∧ h ≤ r.bestSolarEnd))) ∧
      ((∀ h, h < 24 → ¬(peak * (7/10) < irr.getD h 0)) →
        r.bestSolarStart = 12 ∧ r.bestSolarEnd = 15) := by
  have hpne : prices ≠ [] := by intro h; rw [h] at hp; simp at hp
  have hine : irr ≠ [] := by intro h; rw [h] at hi; simp at hi
  obtain ⟨mp, hmin⟩ := pyMin_ok prices hpne
  obtain ⟨xp, hmax⟩ := pyMax_ok prices hpne
  obtain ⟨mi, hmaxi⟩ := pyMax_ok irr hine
  obtain ⟨b, q, hbw, hq, hb, hle, hlt⟩ := findBestWindow_spec prices (by omega)
  refine ⟨_, mi, hmaxi,
    gen_eq ratio soc prices irr mp xp mi b (some q) hmin hmax hbw hmaxi,
    ?_, ?_⟩
  · rintro ⟨h, hh, hqual⟩
    have hmem : h ∈ bestSolarHours irr mi :=
      (mem_bestSolarHours irr mi h).mpr ⟨by omega, hqual⟩
    have hne : bestSolarHours irr mi ≠ [] := List.ne_nil_of_mem hmem
    obtain ⟨hsmem, hsmin⟩ := pyMinNatD_spec (bestSolarHours irr mi) 12 hne
    obtain ⟨hxmem, hxmax⟩ := pyMaxNatD_spec (bestSolarHours irr mi) 15 hne
    have h1 := (mem_bestSolarHours irr mi _).mp hsmem
    have h2 := (mem_bestSolarHours irr mi _).mp hxmem
    refine ⟨?_, h1.2, ?_, h2.2, ?_⟩
    · show pyMinNatD (bestSolarHours irr mi) 12 < 24
      omega
    · show pyMaxNatD (bestSolarHours irr mi) 15 < 24
      omega
    · intro h3 hh3 hq3
      have hmem3 : h3 ∈ bestSolarHours irr mi :=
        (mem_bestSolarHours irr mi h3).mpr ⟨by omega, hq3⟩
      exact ⟨hsmin h3 hmem3, hxmax h3 hmem3⟩
  · intro hall
    have hnil : bestSolarHours irr mi = [] := by
      apply List.eq_nil_iff_forall_not_mem.mpr
      intro i hmem
      have h1 := (mem_bestSolarHours irr mi i).mp hmem
      exact hall i (by omega) h1.2
    show pyMinNatD (bestSolarHours irr mi) 12 = 12 ∧
      pyMaxNatD (bestSolarHours irr mi) 15 = 15
    rw [hnil]
    exact ⟨rfl, rfl⟩

/-- C4 witness: the solar-window characterisation instantiated on the
example irradiance of the spec (peak hours 5, 11, 17, 23). -/
theorem spec_C4_solar_window_witness :
    (List.replicate 24 (10 : ℚ)).length = 24 ∧
    ([0, 0, 0, 0, 0, 100, 0, 0, 0, 0, 0, 100, 0, 0, 0, 0, 0, 100,
      0, 0, 0, 0, 0, 100] : List ℚ).length = 24 ∧
    ∃ r peak, pyMax [0, 0, 0, 0, 0, 100, 0, 0, 0, 0, 0, 100, 0, 0, 0, 0,
        0, 100, 0, 0, 0, 0, 0, 100] = .ok peak ∧
      generate_simple_recommendation 1 50 (List.replicate 24 (10 : ℚ))
        [0, 0, 0, 0, 0, 100, 0, 0, 0, 0, 0, 100, 0, 0, 0, 0, 0, 100,
         0, 0, 0, 0, 0, 100] = .ok r ∧
      ((∃ h, h < 24 ∧ peak * (7/10) <
          ([0, 0, 0, 0, 0, 100, 0, 0, 0, 0, 0, 100, 0, 0, 0, 0, 0, 100,
            0, 0, 0, 0, 0, 100] : List ℚ).getD h 0) →
        (r.bestSolarStart < 24 ∧
         peak * (7/10) < ([0, 0, 0, 0, 0, 100, 0, 0, 0, 0, 0, 100, 0, 0,
           0, 0, 0, 100, 0, 0, 0, 0, 0, 100] : List ℚ).getD r.bestSolarStart 0 ∧
         r.bestSolarEnd < 24 ∧
         peak * (7/10) < ([0, 0, 0, 0, 0, 100, 0, 0, 0, 0, 0, 100, 0, 0,
           0, 0, 0, 100, 0, 0, 0, 0, 0, 100] : List ℚ).getD r.bestSolarEnd 0 ∧
         (∀ h, h < 24 → peak * (7/10) <
             ([0, 0, 0, 0, 0, 100, 0, 0, 0, 0, 0, 100, 0, 0, 0, 0, 0, 100,
               0, 0, 0, 0, 0, 100] : List ℚ).getD h 0 →
           r.bestSolarStart ≤ h ∧ h ≤ r.bestSolarEnd))) ∧
      ((∀ h, h < 24 → ¬(peak * (7/10) <
          ([0, 0, 0, 0, 0, 100, 0, 0, 0, 0, 0, 100, 0, 0, 0, 0, 0, 100,
            0, 0, 0, 0, 0, 100] : List ℚ).getD h 0)) →
        r.bestSolarStart = 12 ∧ r.bestSolarEnd = 15) :=
  ⟨by simp, by simp,
   spec_C4_solar_window 1 50 (List.replicate 24 (10 : ℚ)) _ (by simp) (by simp)⟩

lemma gen_ok_of (ratio soc : ℚ) (prices irr : List ℚ)
    (hp : 22 ≤ prices.length) (hi : irr ≠ []) :
    exceptOk (generate_simple_recommendation ratio soc prices irr) = true := by
  have hpne : prices ≠ [] := by intro h; rw [h] at hp; simp at hp
  obtain ⟨mp, hmin⟩ := pyMin_ok prices hpne
  obtain ⟨xp, hmax⟩ := pyMax_ok prices hpne
  obtain ⟨mi, hmaxi⟩ := pyMax_ok irr hi
  obtain ⟨b, q, hbw, _, _, _, _⟩ := findBestWindow_spec prices hp
  rw [gen_eq ratio soc prices irr mp xp mi b (some q) hmin hmax hbw hmaxi]
  rfl

lemma gen_err_empty_irr (ratio soc : ℚ) (prices : List ℚ)
    (hp : 22 ≤ prices.length) :
    exceptOk (generate_simple_recommendation ratio soc prices []) = false := by
  have hpne : prices ≠ [] := by intro h; rw [h] at hp; simp at hp
  obtain ⟨mp, hmin⟩ := pyMin_ok prices hpne
  obtain ⟨xp, hmax⟩ := pyMax_ok prices hpne
  obtain ⟨b, q, hbw, _, _, _, _⟩ := findBestWindow_spec prices hp
  unfold generate_simple_recommendation
  rw [hmin, hmax, hbw]
  rfl

lemma gen_err_short_prices (ratio soc : ℚ) (prices irr : List ℚ)
    (h0 : prices ≠ []) (h22 : prices.length < 22) :
    exceptOk (generate_simple_recommendation ratio soc prices irr) = false := by
  obtain ⟨mp, hmin⟩ := pyMin_ok prices h0
  obtain ⟨xp, hmax⟩ := pyMax_ok prices h0
  have herr : exceptOk (findBestWindow prices) = false := by
    rw [findBestWindow]
    exact foldlM_err_of prices (List.range 22) (0, none)
      ⟨prices.length, List.mem_range.mpr h22, le_refl _⟩
  obtain ⟨e, he⟩ := (exceptOk_false_iff _).mp herr
  unfold generate_simple_recommendation
  rw [hmin, hmax, he]
  rfl

/-- C6 amended: the recommendation never raises for valid 24-length inputs
and raises for empty series; but a nonempty non-24-length series is not
always rejected — any price series of length ≥ 22 with nonempty irradiance
completes without raising (price series of length 1-21 do raise, via the
ZeroDivisionError of the empty-window mean). -/
theorem spec_C6_amended (ratio soc : ℚ) (prices irr : List ℚ) :
    (0 ≤ soc → soc ≤ 100 → prices.length = 24 → irr.length = 24 →
      exceptOk (generate_simple_recommendation ratio soc prices irr) = true) ∧
    (prices = [] →
      exceptOk (generate_simple_recommendation ratio soc prices irr) = false) ∧
    (irr = [] →
      exceptOk (generate_simple_recommendation ratio soc prices irr) = false) ∧
    (prices ≠ [] → prices.length < 22 →
      exceptOk (generate_simple_recommendation ratio soc prices irr) = false) ∧
    (22 ≤ prices.length → irr ≠ [] →
      exceptOk (generate_simple_recommendation ratio soc prices irr) = true) := by
  refine ⟨?_, ?_, ?_, ?_, ?_⟩
  · intro _ _ hp hi
    have hine : irr ≠ [] := by intro h; rw [h] at hi; simp at hi
    exact gen_ok_of ratio soc prices irr (by omega) hine
  · intro h
    subst h
    rfl
  · intro hirr
    subst hirr
    by_cases h0 : prices = []
    · subst h0
      rfl
    · by_cases h22 : prices.length < 22
      · exact gen_err_short_prices ratio soc prices [] h0 h22
      · exact gen_err_empty_irr ratio soc prices (by omega)
  · exact gen_err_short_prices ratio soc prices irr
  · intro h hne
    exact gen_ok_of ratio soc prices irr h hne

/-- C6 witness: the no-raise guarantee instantiated at soc = 50 on valid
24-length series. -/
theorem spec_C6_amended_witness :
    (0 : ℚ) ≤ 50 ∧ (50 : ℚ) ≤ 100 ∧
    (List.replicate 24 (2 : ℚ)).length = 24 ∧
    (List.replicate 24 (0 : ℚ)).length = 24 ∧
    exceptOk (generate_simple_recommendation 1 50 (List.replicate 24 (2 : ℚ))
      (List.replicate 24 (0 : ℚ))) = true :=
  ⟨by norm_num, by norm_num, by simp, by simp,
   (spec_C6_amended 1 50 (List.replicate 24 (2 : ℚ))
     (List.replicate 24 (0 : ℚ))).1 (by norm_num) (by norm_num) (by simp)
     (by simp)⟩

/-- C6 counterexample: a 23-length (hence non-24-length, nonempty) price
series with a valid irradiance series is processed without raising, so the
engine does not fail fast on every non-24-length series. -/
theorem spec_C6_counterexample :
    exceptOk (generate_simple_recommendation 1 50 (List.replicate 23 (1 : ℚ))
      (List.replicate 24 (1 : ℚ))) = true :=
  gen_ok_of 1 50 (List.replicate 23 (1 : ℚ)) (List.replicate 24 (1 : ℚ))
    (by simp) (by simp)

lemma parse_obj_data (data : Json) :
    get_prices_from_json (Json.obj [("data", data)]) =
      (match data.lookup "dataLine" with
      | none => .error "No dataLine field found in price response"
      | some dataLine =>
        match dataLine with
        | .arr series =>
          if series.length < 2 then
            .error "Price data not yet available - dataLine array is too short"
          else
            match series.get? 1 with
            | none => .error "Price data not yet available - unexpected data structure"
            | some second =>
              match second.lookup "point" with
              | none => .error "Price data not yet available - no point field in dataLine[1]"
              | some pts =>
                match pts with
                | .arr points =>
                  if points.isEmpty then
                    .error "Price data not yet available - points array is empty"
                  else
                    extractPrices points
                | _ => .error "Price data not yet available - unexpected data structure"
        | _ => .error "Price data not yet available - unexpected data structure") := rfl

lemma parse_dataLine_arr (series : List Json) :
    get_prices_from_json (mkResponseRaw (.arr series)) =
      (if series.length < 2 then
        .error "Price data not yet available - dataLine array is too short"
      else
        match series.get? 1 with
        | none => .error "Price data not yet available - unexpected data structure"
        | some second =>
          match second.lookup "point" with
          | none => .error "Price data not yet available - no point field in dataLine[1]"
          | some pts =>
            match pts with
            | .arr points =>
              if points.isEmpty then
                .error "Price data not yet available - points array is empty"
              else extractPrices points
            | _ => .error "Price data not yet available - unexpected data structure") := rfl

lemma parse_second (first second : Json) :
    get_prices_from_json (mkResponseRaw (.arr [first, second])) =
      (match second.lookup "point" with
       | none => .error "Price data not yet available - no point field in dataLine[1]"
       | some pts =>
         match pts with
         | .arr points =>
           if points.isEmpty then
             .error "Price data not yet available - points array is empty"
           else extractPrices points
         | _ => .error "Price data not yet available - unexpected data structure") := rfl

lemma extractPrices_all_some : ∀ (points : List Json),
    (∀ p ∈ points, (pointVal p).isSome = true) →
    extractPrices points = .ok (points.filterMap pointVal) := by
  intro points
  induction points with
  | nil => intro _; rfl
  | cons p rest ih =>
    intro h
    have hp : (pointVal p).isSome = true := h p (List.mem_cons_self p rest)
    obtain ⟨v, hv⟩ := Option.isSome_iff_exists.mp hp
    obtain ⟨y, hy, hny⟩ := Option.bind_eq_some.mp hv
    have hrest := ih (fun q hq => h q (List.mem_cons_of_mem p hq))
    simp only [extractPrices, hy, hny, hrest, List.filterMap_cons, hv]

lemma filterMap_all_some_length : ∀ (l : List Json),
    (∀ p ∈ l, (pointVal p).isSome = true) →
    (l.filterMap pointVal).length = l.length := by
  intro l
  induction l with
  | nil => intro _; rfl
  | cons p rest ih =>
    intro h
    have hp : (pointVal p).isSome = true := h p (List.mem_cons_self p rest)
    obtain ⟨v, hv⟩ := Option.isSome_iff_exists.mp hp
    have hrest := ih (fun q hq => h q (List.mem_cons_of_mem p hq))
    simp [List.filterMap_cons, hv, hrest]

lemma parse_wellformed (points : List Json) (hne : points ≠ [])
    (hall : ∀ p ∈ points, (pointVal p).isSome = true) :
    get_prices_from_json (mkResponse points)
      = .ok (points.filterMap pointVal) := by
  cases points with
  | nil => exact absurd rfl hne
  | cons p rest =>
    have hred : get_prices_from_json (mkResponse (p :: rest))
        = extractPrices (p :: rest) := rfl
    rw [hred]
    exact extractPrices_all_some _ hall

lemma extractPrices_bad : ∀ (pre : List Json) (p : Json) (post : List Json),
    pointVal p = none →
    exceptOk (extractPrices (pre ++ p :: post)) = false := by
  intro pre
  induction pre with
  | nil =>
    intro p post hbad
    rcases hy : p.lookup "y" with _ | y
    · simp [extractPrices, hy, exceptOk]
    · have hn : numVal y = none := by
        unfold pointVal at hbad
        rw [hy] at hbad
        simpa using hbad
      simp [extractPrices, hy, hn, exceptOk]
  | cons a rest ih =>
    intro p post hbad
    rcases hy : a.lookup "y" with _ | y
    · simp [extractPrices, hy, exceptOk]
    · rcases hn : numVal y with _ | v
      · simp [extractPrices, hy, hn, exceptOk]
      · obtain ⟨e, he⟩ := (exceptOk_false_iff _).mp (ih p post hbad)
        simp [extractPrices, hy, hn, he, exceptOk]

/-- C10: a well-formed response whose second data series holds any nonempty
point array of numeric points parses to exactly those values in order, with
no arity check — the result has the same length as the point array even
when that length is not 24. -/
theorem spec_C10_no_arity_check (points : List Json) (hne : points ≠ [])
    (hall : ∀ p ∈ points, (pointVal p).isSome = true) :
    get_prices_from_json (mkResponse points)
      = .ok (points.filterMap pointVal) ∧
    (points.filterMap pointVal).length = points.length := by
  exact ⟨parse_wellformed points hne hall, filterMap_all_some_length points hall⟩

/-- C10 witness: a two-point response (a 23-hour-style short day would
behave the same) parses to its two values without error. -/
theorem spec_C10_no_arity_check_witness :
    ([mkPoint 5, mkPoint 7] ≠ ([] : List Json)) ∧
    (∀ p ∈ [mkPoint 5, mkPoint 7], (pointVal p).isSome = true) ∧
    (get_prices_from_json (mkResponse [mkPoint 5, mkPoint 7])
       = .ok ([mkPoint 5, mkPoint 7].filterMap pointVal) ∧
     ([mkPoint 5, mkPoint 7].filterMap pointVal).length
       = [mkPoint 5, mkPoint 7].length) :=
  ⟨List.cons_ne_nil _ _,
   by
    intro p hp
    rcases List.mem_cons.mp hp with rfl | hp2
    · rfl
    · rcases List.mem_cons.mp hp2 with rfl | hp3
      · rfl
      · simp at hp3,
   spec_C10_no_arity_check [mkPoint 5, mkPoint 7] (List.cons_ne_nil _ _)
     (by
      intro p hp
      rcases List.mem_cons.mp hp with rfl | hp2
      · rfl
      · rcases List.mem_cons.mp hp2 with rfl | hp3
        · rfl
        · simp at hp3)⟩

lemma filterMap_map_mkPoint : ∀ (ps : List ℚ),
    (ps.map mkPoint).filterMap pointVal = ps := by
  intro ps
  induction ps with
  | nil => rfl
  | cons v t ih =>
    have hv : pointVal (mkPoint v) = some v := rfl
    rw [List.map_cons, List.filterMap_cons, hv, ih]

/-- C5 amended: the parser raises only PriceDataNotAvailableError for every
listed structural deviation (missing data / dataLine, short dataLine,
missing point field, empty point array, missing or non-numeric point
value), and a well-formed response with 24 numeric points returns exactly
those 24 values; the point-array arity itself is not checked, so a
nonempty well-formed array of any length parses without error. -/
theorem spec_C5_parser_errors :
    (∀ j : Json, j.lookup "data" = none →
      exceptOk (get_prices_from_json j) = false) ∧
    (∀ data : Json, data.lookup "dataLine" = none →
      exceptOk (get_prices_from_json (.obj [("data", data)])) = false) ∧
    (∀ items : List Json, items.length < 2 →
      exceptOk (get_prices_from_json (mkResponseRaw (.arr items))) = false) ∧
    (∀ first second : Json, second.lookup "point" = none →
      exceptOk (get_prices_from_json (mkResponseRaw (.arr [first, second])))
        = false) ∧
    (∀ first : Json,
      get_prices_from_json
          (mkResponseRaw (.arr [first, .obj [("point", .arr [])]]))
        = .error "Price data not yet available - points array is empty") ∧
    (∀ first : Json, ∀ pre post : List Json, ∀ p : Json, pointVal p = none →
      exceptOk (get_prices_from_json (mkResponseRaw
        (.arr [first, .obj [("point", .arr (pre ++ p :: post))]]))) = false) ∧
    (∀ ps : List ℚ, ps.length = 24 →
      get_prices_from_json (mkResponse (ps.map mkPoint)) = .ok ps) := by
  refine ⟨?_, ?_, ?_, ?_, ?_, ?_, ?_⟩
  · intro j hj
    unfold get_prices_from_json
    rw [hj]
    rfl
  · intro data hd
    rw [parse_obj_data, hd]
    rfl
  · intro items hlen
    rw [parse_dataLine_arr, if_pos hlen]
    rfl
  · intro first second hsec
    rw [parse_second, hsec]
    rfl
  · intro first
    rfl
  · intro first pre post p hbad
    have hred : get_prices_from_json (mkResponseRaw
        (.arr [first, .obj [("point", .arr (pre ++ p :: post))]]))
        = extractPrices (pre ++ p :: post) := by
      cases pre <;> rfl
    rw [hred]
    exact extractPrices_bad pre p post hbad
  · intro ps hlen
    have hall : ∀ p ∈ ps.map mkPoint, (pointVal p).isSome = true := by
      intro p hp
      obtain ⟨v, _, rfl⟩ := List.mem_map.mp hp
      rfl
    have hne : ps.map mkPoint ≠ [] := by
      intro h
      have := congrArg List.length h
      simp [hlen] at this
    rw [parse_wellformed (ps.map mkPoint) hne hall, filterMap_map_mkPoint]

/-- C5 witness: the error characterisation instantiated at a response with
no data field, at an empty point array, and at a well-formed 24-point
response. -/
theorem spec_C5_parser_errors_witness :
    exceptOk (get_prices_from_json Json.null) = false ∧
    get_prices_from_json
        (mkResponseRaw (.arr [Json.null, .obj [("point", .arr [])]]))
      = .error "Price data not yet available - points array is empty" ∧
    get_prices_from_json (mkResponse ((List.replicate 24 (3 : ℚ)).map mkPoint))
      = .ok (List.replicate 24 (3 : ℚ)) :=
  ⟨spec_C5_parser_errors.1 Json.null rfl,
   spec_C5_parser_errors.2.2.2.2.1 Json.null,
   spec_C5_parser_errors.2.2.2.2.2.2 (List.replicate 24 (3 : ℚ)) (by simp)⟩

/-- C5 counterexample: a well-formed response whose point array has the
wrong arity (a single point, not 24) does not raise — it parses to a
1-length series — so wrong point-array arity is not an error condition. -/
theorem spec_C5_counterexample :
    get_prices_from_json (mkResponse [mkPoint 42]) = .ok [42] ∧
    exceptOk (get_prices_from_json (mkResponse [mkPoint 42])) = true :=
  ⟨rfl, rfl⟩

lemma exfoldlM_cons_ok (f : (ℕ × Option ℚ) → ℕ → Except String (ℕ × Option ℚ))
    (a : ℕ × Option ℚ) (x : ℕ) (xs : List ℕ) (b : ℕ × Option ℚ)
    (h : f a x = .ok b) :
    List.foldlM f a (x :: xs) = List.foldlM f b xs := by
  show (f a x >>= fun c => List.foldlM f c xs) = _
  rw [h]
  exact exbind_ok b (fun c => List.foldlM f c xs)

lemma wavg_ex0 : windowAvg examplePrices 0 = 35/3 := by
  norm_num [windowAvg, windowSlice, examplePrices]

lemma wavg_ex1 : windowAvg examplePrices 1 = 26/3 := by
  norm_num [windowAvg, windowSlice, examplePrices]

lemma wavg_ex2 : windowAvg examplePrices 2 = 8 := by
  norm_num [windowAvg, windowSlice, examplePrices]

lemma wavg_ex3 : windowAvg examplePrices 3 = 34/3 := by
  norm_num [windowAvg, windowSlice, examplePrices]

lemma wavg_ex4 : windowAvg examplePrices 4 = 43/3 := by
  norm_num [windowAvg, windowSlice, examplePrices]

lemma wavg_ex5 : windowAvg examplePrices 5 = 15 := by
  norm_num [windowAvg, windowSlice, examplePrices]

lemma wavg_ex6 : windowAvg examplePrices 6 = 35/3 := by
  norm_num [windowAvg, windowSlice, examplePrices]

lemma wavg_ex7 : windowAvg examplePrices 7 = 26/3 := by
  norm_num [windowAvg, windowSlice, examplePrices]

lemma wavg_ex8 : windowAvg examplePrices 8 = 8 := by
  norm_num [windowAvg, windowSlice, examplePrices]

lemma wavg_ex9 : windowAvg examplePrices 9 = 34/3 := by
  norm_num [windowAvg, windowSlice, examplePrices]

lemma wavg_ex10 : windowAvg examplePrices 10 = 43/3 := by
  norm_num [windowAvg, windowSlice, examplePrices]

lemma wavg_ex11 : windowAvg examplePrices 11 = 15 := by
  norm_num [windowAvg, windowSlice, examplePrices]

lemma wavg_ex12 : windowAvg examplePrices 12 = 35/3 := by
  norm_num [windowAvg, windowSlice, examplePrices]

lemma wavg_ex13 : windowAvg examplePrices 13 = 26/3 := by
  norm_num [windowAvg, windowSlice, examplePrices]

lemma wavg_ex14 : windowAvg examplePrices 14 = 8 := by
  norm_num [windowAvg, windowSlice, examplePrices]

lemma wavg_ex15 : windowAvg examplePrices 15 = 34/3 := by
  norm_num [windowAvg, windowSlice, examplePrices]

lemma wavg_ex16 : windowAvg examplePrices 16 = 43/3 := by
  norm_num [windowAvg, windowSlice, examplePrices]

lemma wavg_ex17 : windowAvg examplePrices 17 = 15 := by
  norm_num [windowAvg, windowSlice, examplePrices]

lemma wavg_ex18 : windowAvg examplePrices 18 = 35/3 := by
  norm_num [windowAvg, windowSlice, examplePrices]

lemma wavg_ex19 : windowAvg examplePrices 19 = 26/3 := by
  norm_num [windowAvg, windowSlice, examplePrices]

lemma wavg_ex20 : windowAvg examplePrices 20 = 8 := by
  norm_num [windowAvg, windowSlice, examplePrices]

lemma wavg_ex21 : windowAvg examplePrices 21 = 34/3 := by
  norm_num [windowAvg, windowSlice, examplePrices]

lemma step_ex0 : windowStep examplePrices (0, none) 0 = .ok (0, some (35/3)) := by
  have hl : ¬((windowSlice examplePrices 0).length = 0) := by decide
  have hc : ltInf (windowAvg examplePrices 0) none = true := rfl
  unfold windowStep
  rw [if_neg hl, hc]
  rw [if_pos rfl, wavg_ex0]

lemma step_ex1 : windowStep examplePrices (0, some (35/3)) 1 = .ok (1, some (26/3)) := by
  have hl : ¬((windowSlice examplePrices 1).length = 0) := by decide
  have hc : ltInf (windowAvg examplePrices 1) (some (35/3)) = true := by
    show decide (windowAvg examplePrices 1 < 35/3) = true
    rw [wavg_ex1]
    exact decide_eq_true (by norm_num)
  unfold windowStep
  rw [if_neg hl, hc]
  rw [if_pos rfl, wavg_ex1]

lemma step_ex2 : windowStep examplePrices (1, some (26/3)) 2 = .ok (2, some (8)) := by
  have hl : ¬((windowSlice examplePrices 2).length = 0) := by decide
  have hc : ltInf (windowAvg examplePrices 2) (some (26/3)) = true := by
    show decide (windowAvg examplePrices 2 < 26/3) = true
    rw [wavg_ex2]
    exact decide_eq_true (by norm_num)
  unfold windowStep
  rw [if_neg hl, hc]
  rw [if_pos rfl, wavg_ex2]

lemma step_ex3 : windowStep examplePrices (2, some (8)) 3 = .ok (2, some (8)) := by
  have hl : ¬((windowSlice examplePrices 3).length = 0) := by decide
  have hc : ltInf (windowAvg examplePrices 3) (some (8)) = false := by
    show decide (windowAvg examplePrices 3 < 8) = false
    rw [wavg_ex3]
    exact decide_eq_false (by norm_num)
  unfold windowStep
  rw [if_neg hl, hc]
  rw [if_neg (by simp)]

lemma step_ex4 : windowStep examplePrices (2, some (8)) 4 = .ok (2, some (8)) := by
  have hl : ¬((windowSlice examplePrices 4).length = 0) := by decide
  have hc : ltInf (windowAvg examplePrices 4) (some (8)) = false := by
    show decide (windowAvg examplePrices 4 < 8) = false
    rw [wavg_ex4]
    exact decide_eq_false (by norm_num)
  unfold windowStep
  rw [if_neg hl, hc]
  rw [if_neg (by simp)]

lemma step_ex5 : windowStep examplePrices (2, some (8)) 5 = .ok (2, some (8)) := by
  have hl : ¬((windowSlice examplePrices 5).length = 0) := by decide
  have hc : ltInf (windowAvg examplePrices 5) (some (8)) = false := by
    show decide (windowAvg examplePrices 5 < 8) = false
    rw [wavg_ex5]
    exact decide_eq_false (by norm_num)
  unfold windowStep
  rw [if_neg hl, hc]
  rw [if_neg (by simp)]

lemma step_ex6 : windowStep examplePrices (2, some (8)) 6 = .ok (2, some (8)) := by
  have hl : ¬((windowSlice examplePrices 6).length = 0) := by decide
  have hc : ltInf (windowAvg examplePrices 6) (some (8)) = false := by
    show decide (windowAvg examplePrices 6 < 8) = false
    rw [wavg_ex6]
    exact decide_eq_false (by norm_num)
  unfold windowStep
  rw [if_neg hl, hc]
  rw [if_neg (by simp)]

lemma step_ex7 : windowStep examplePrices (2, some (8)) 7 = .ok (2, some (8)) := by
  have hl : ¬((windowSlice examplePrices 7).length = 0) := by decide
  have hc : ltInf (windowAvg examplePrices 7) (some (8)) = false := by
    show decide (windowAvg examplePrices 7 < 8) = false
    rw [wavg_ex7]
    exact decide_eq_false (by norm_num)
  unfold windowStep
  rw [if_neg hl, hc]
  rw [if_neg (by simp)]

lemma step_ex8 : windowStep examplePrices (2, some (8)) 8 = .ok (2, some (8)) := by
  have hl : ¬((windowSlice examplePrices 8).length = 0) := by decide
  have hc : ltInf (windowAvg examplePrices 8) (some (8)) = false := by
    show decide (windowAvg examplePrices 8 < 8) = false
    rw [wavg_ex8]
    exact decide_eq_false (by norm_num)
  unfold windowStep
  rw [if_neg hl, hc]
  rw [if_neg (by simp)]

lemma step_ex9 : windowStep examplePrices (2, some (8)) 9 = .ok (2, some (8)) := by
  have hl : ¬((windowSlice examplePrices 9).length = 0) := by decide
  have hc : ltInf (windowAvg examplePrices 9) (some (8)) = false := by
    show decide (windowAvg examplePrices 9 < 8) = false
    rw [wavg_ex9]
    exact decide_eq_false (by norm_num)
  unfold windowStep
  rw [if_neg hl, hc]
  rw [if_neg (by simp)]

lemma step_ex10 : windowStep examplePrices (2, some (8)) 10 = .ok (2, some (8)) := by
  have hl : ¬((windowSlice examplePrices 10).length = 0) := by decide
  have hc : ltInf (windowAvg examplePrices 10) (some (8)) = false := by
    show decide (windowAvg examplePrices 10 < 8) = false
    rw [wavg_ex10]
    exact decide_eq_false (by norm_num)
  unfold windowStep
  rw [if_neg hl, hc]
  rw [if_neg (by simp)]

lemma step_ex11 : windowStep examplePrices (2, some (8)) 11 = .ok (2, some (8)) := by
  have hl : ¬((windowSlice examplePrices 11).length = 0) := by decide
  have hc : ltInf (windowAvg examplePrices 11) (some (8)) = false := by
    show decide (windowAvg examplePrices 11 < 8) = false
    rw [wavg_ex11]
    exact decide_eq_false (by norm_num)
  unfold windowStep
  rw [if_neg hl, hc]
  rw [if_neg (by simp)]

lemma step_ex12 : windowStep examplePrices (2, some (8)) 12 = .ok (2, some (8)) := by
  have hl : ¬((windowSlice examplePrices 12).length = 0) := by decide
  have hc : ltInf (windowAvg examplePrices 12) (some (8)) = false := by
    show decide (windowAvg examplePrices 12 < 8) = false
    rw [wavg_ex12]
    exact decide_eq_false (by norm_num)
  unfold windowStep
  rw [if_neg hl, hc]
  rw [if_neg (by simp)]

lemma step_ex13 : windowStep examplePrices (2, some (8)) 13 = .ok (2, some (8)) := by
  have hl : ¬((windowSlice examplePrices 13).length = 0) := by decide
  have hc : ltInf (windowAvg examplePrices 13) (some (8)) = false := by
    show decide (windowAvg examplePrices 13 < 8) = false
    rw [wavg_ex13]
    exact decide_eq_false (by norm_num)
  unfold windowStep
  rw [if_neg hl, hc]
  rw [if_neg (by simp)]

lemma step_ex14 : windowStep examplePrices (2, some (8)) 14 = .ok (2, some (8)) := by
  have hl : ¬((windowSlice examplePrices 14).length = 0) := by decide
  have hc : ltInf (windowAvg examplePrices 14) (some (8)) = false := by
    show decide (windowAvg examplePrices 14 < 8) = false
    rw [wavg_ex14]
    exact decide_eq_false (by norm_num)
  unfold windowStep
  rw [if_neg hl, hc]
  rw [if_neg (by simp)]

lemma step_ex15 : windowStep examplePrices (2, some (8)) 15 = .ok (2, some (8)) := by
  have hl : ¬((windowSlice examplePrices 15).length = 0) := by decide
  have hc : ltInf (windowAvg examplePrices 15) (some (8)) = false := by
    show decide (windowAvg examplePrices 15 < 8) = false
    rw [wavg_ex15]
    exact decide_eq_false (by norm_num)
  unfold windowStep
  rw [if_neg hl, hc]
  rw [if_neg (by simp)]

lemma step_ex16 : windowStep examplePrices (2, some (8)) 16 = .ok (2, some (8)) := by
  have hl : ¬((windowSlice examplePrices 16).length = 0) := by decide
  have hc : ltInf (windowAvg examplePrices 16) (some (8)) = false := by
    show decide (windowAvg examplePrices 16 < 8) = false
    rw [wavg_ex16]
    exact decide_eq_false (by norm_num)
  unfold windowStep
  rw [if_neg hl, hc]
  rw [if_neg (by simp)]

lemma step_ex17 : windowStep examplePrices (2, some (8)) 17 = .ok (2, some (8)) := by
  have hl : ¬((windowSlice examplePrices 17).length = 0) := by decide
  have hc : ltInf (windowAvg examplePrices 17) (some (8)) = false := by
    show decide (windowAvg examplePrices 17 < 8) = false
    rw [wavg_ex17]
    exact decide_eq_false (by norm_num)
  unfold windowStep
  rw [if_neg hl, hc]
  rw [if_neg (by simp)]

lemma step_ex18 : windowStep examplePrices (2, some (8)) 18 = .ok (2, some (8)) := by
  have hl : ¬((windowSlice examplePrices 18).length = 0) := by decide
  have hc : ltInf (windowAvg examplePrices 18) (some (8)) = false := by
    show decide (windowAvg examplePrices 18 < 8) = false
    rw [wavg_ex18]
    exact decide_eq_false (by norm_num)
  unfold windowStep
  rw [if_neg hl, hc]
  rw [if_neg (by simp)]

lemma step_ex19 : windowStep examplePrices (2, some (8)) 19 = .ok (2, some (8)) := by
  have hl : ¬((windowSlice examplePrices 19).length = 0) := by decide
  have hc : ltInf (windowAvg examplePrices 19) (some (8)) = false := by
    show decide (windowAvg examplePrices 19 < 8) = false
    rw [wavg_ex19]
    exact decide_eq_false (by norm_num)
  unfold windowStep
  rw [if_neg hl, hc]
  rw [if_neg (by simp)]

lemma step_ex20 : windowStep examplePrices (2, some (8)) 20 = .ok (2, some (8)) := by
  have hl : ¬((windowSlice examplePrices 20).length = 0) := by decide
  have hc : ltInf (windowAvg examplePrices 20) (some (8)) = false := by
    show decide (windowAvg examplePrices 20 < 8) = false
    rw [wavg_ex20]
    exact decide_eq_false (by norm_num)
  unfold windowStep
  rw [if_neg hl, hc]
  rw [if_neg (by simp)]

lemma step_ex21 : windowStep examplePrices (2, some (8)) 21 = .ok (2, some (8)) := by
  have hl : ¬((windowSlice examplePrices 21).length = 0) := by decide
  have hc : ltInf (windowAvg examplePrices 21) (some (8)) = false := by
    show decide (windowAvg examplePrices 21 < 8) = false
    rw [wavg_ex21]
    exact decide_eq_false (by norm_num)
  unfold windowStep
  rw [if_neg hl, hc]
  rw [if_neg (by simp)]

lemma fbw_example : findBestWindow examplePrices = .ok (2, some 8) := by
  have e : List.range 22 = [0, 1, 2, 3, 4, 5, 6, 7, 8, 9, 10, 11, 12, 13,
      14, 15, 16, 17, 18, 19, 20, 21] := rfl
  rw [findBestWindow, e]
  rw [exfoldlM_cons_ok _ _ _ _ _ step_ex0]
  rw [exfoldlM_cons_ok _ _ _ _ _ step_ex1]
  rw [exfoldlM_cons_ok _ _ _ _ _ step_ex2]
  rw [exfoldlM_cons_ok _ _ _ _ _ step_ex3]
  rw [exfoldlM_cons_ok _ _ _ _ _ step_ex4]
  rw [exfoldlM_cons_ok _ _ _ _ _ step_ex5]
  rw [exfoldlM_cons_ok _ _ _ _ _ step_ex6]
  rw [exfoldlM_cons_ok _ _ _ _ _ step_ex7]
  rw [exfoldlM_cons_ok _ _ _ _ _ step_ex8]
  rw [exfoldlM_cons_ok _ _ _ _ _ step_ex9]
  rw [exfoldlM_cons_ok _ _ _ _ _ step_ex10]
  rw [exfoldlM_cons_ok _ _ _ _ _ step_ex11]
  rw [exfoldlM_cons_ok _ _ _ _ _ step_ex12]
  rw [exfoldlM_cons_ok _ _ _ _ _ step_ex13]
  rw [exfoldlM_cons_ok _ _ _ _ _ step_ex14]
  rw [exfoldlM_cons_ok _ _ _ _ _ step_ex15]
  rw [exfoldlM_cons_ok _ _ _ _ _ step_ex16]
  rw [exfoldlM_cons_ok _ _ _ _ _ step_ex17]
  rw [exfoldlM_cons_ok _ _ _ _ _ step_ex18]
  rw [exfoldlM_cons_ok _ _ _ _ _ step_ex19]
  rw [exfoldlM_cons_ok _ _ _ _ _ step_ex20]
  rw [exfoldlM_cons_ok _ _ _ _ _ step_ex21]
  rw [exfoldlM_nil]


lemma bsh_example : bestSolarHours exampleIrr 100 = [5, 11, 17, 23] := by
  have e : List.range exampleIrr.length = [0, 1, 2, 3, 4, 5, 6, 7, 8, 9, 10,
      11, 12, 13, 14, 15, 16, 17, 18, 19, 20, 21, 22, 23] := rfl
  rw [bestSolarHours, e]
  have h70 : (100 : ℚ) * (7/10) = 70 := by norm_num
  have hpt : ∀ i ∈ [0, 1, 2, 3, 4, 5, 6, 7, 8, 9, 10, 11, 12, 13, 14, 15,
      16, 17, 18, 19, 20, 21, 22, 23],
      (decide ((100 : ℚ) * (7/10) < exampleIrr.getD i 0))
        = (decide ((70 : ℚ) < exampleIrr.getD i 0)) := by
    intro i _
    rw [h70]
  rw [List.filter_congr hpt]
  rfl

set_option maxRecDepth 4000 in
/-- C1 counterexample: on the example input of the spec (soc 25, the repeating
price and irradiance patterns) the best solar window ends at hour 23, not
hour 5 — irradiance peaks at hours 5, 11, 17 and 23, so [min,max] of the
qualifying hours is [5,23], not [5,5]. -/
theorem spec_C1_counterexample :
    (recOf (generate_simple_recommendation 1 25 examplePrices exampleIrr)).map
      Recommendation.bestSolarEnd = some 23 ∧
    (recOf (generate_simple_recommendation 1 25 examplePrices exampleIrr)).map
      Recommendation.bestSolarEnd ≠ some 5 := by
  have h25 := gen_eq 1 25 examplePrices exampleIrr 6 18 100 2 (some 8)
    rfl rfl fbw_example rfl
  have hmx : pyMaxNatD [5, 11, 17, 23] 15 = 23 := rfl
  constructor
  · simp [recOf, h25, Except.toOption, bsh_example, hmx]
  · simp [recOf, h25, Except.toOption, bsh_example, hmx]

set_option maxRecDepth 4000 in
/-- C1 amended: on the example input of the spec with soc 25 the engine
recommends charging with cheapest window start hour 2, and the best solar
window is [5, 23] (not [5, 5] as the example in the spec says); with soc 80 it
does not recommend charging. -/
theorem spec_C1_amended :
    (recOf (generate_simple_recommendation 1 25 examplePrices exampleIrr)).map
      Recommendation.shouldCharge = some true ∧
    (recOf (generate_simple_recommendation 1 25 examplePrices exampleIrr)).map
      Recommendation.chargeStartHour = some 2 ∧
    (recOf (generate_simple_recommendation 1 25 examplePrices exampleIrr)).map
      Recommendation.bestSolarStart = some 5 ∧
    (recOf (generate_simple_recommendation 1 25 examplePrices exampleIrr)).map
      Recommendation.bestSolarEnd = some 23 ∧
    (recOf (generate_simple_recommendation 1 80 examplePrices exampleIrr)).map
      Recommendation.shouldCharge = some false := by
  have h25 := gen_eq 1 25 examplePrices exampleIrr 6 18 100 2 (some 8)
    rfl rfl fbw_example rfl
  have h80 := gen_eq 1 80 examplePrices exampleIrr 6 18 100 2 (some 8)
    rfl rfl fbw_example rfl
  have h30 : (25 : ℚ) < 30 := by norm_num
  have h1 : ¬((80 : ℚ) < 30) := by norm_num
  have h2 : ¬((80 : ℚ) < 60) := by norm_num
  have hmn : pyMinNatD [5, 11, 17, 23] 12 = 5 := rfl
  have hmx : pyMaxNatD [5, 11, 17, 23] 15 = 23 := rfl
  refine ⟨?_, ?_, ?_, ?_, ?_⟩
  · simp [recOf, h25, Except.toOption, h30]
  · simp [recOf, h25, Except.toOption]
  · simp [recOf, h25, Except.toOption, bsh_example, hmn]
  · simp [recOf, h25, Except.toOption, bsh_example, hmx]
  · simp [recOf, h80, Except.toOption, h1, h2]
